import Mathlib

/-!
Verification development for the Query Orchestrator of the `local_ai_stack`
repository (`flask-app/app.py`, class `EnhancedVectorizedRAGPipeline`).

The Python pipeline is shallowly embedded:
* dictionaries coming from the vector-search payload become the `SearchResult`
  structure (every key the pipeline reads is a field);
* Python floats become `ℚ` (the decimal constants of the source are exact in
  `ℚ`; `round(x, n)` and `"%.3f"` formatting are modelled as exact half-even
  rounding of the rational value);
* the outcomes of the two outbound HTTP calls (vector search, Ollama) are
  inputs of the embedding (`SearchOutcome`, `OllamaOutcome`), covering the
  success, non-success-status, timeout and exception branches of the source;
* an exception escaping the body of `process_query`'s `try` is modelled by the
  `unhandled` field of `Env` (every helper called inside the body is total
  here, exactly as in the source, where each helper catches its own errors).
-/

set_option maxRecDepth 16384

/-! ### String helpers (Python `in`, `str.split()`, `str` slicing) -/

/-- Python's substring test `pat in s`, on the character list of `s`. -/
def listSub (pat : List Char) : List Char → Bool
  | [] => pat.isEmpty
  | c :: rest => pat.isPrefixOf (c :: rest) || listSub pat rest

/-- Python's `pat in s` for strings. -/
def strContains (s pat : String) : Bool := listSub pat.data s.data

/-- Character index of the first occurrence of `pat` (length of `s` plus the
pattern position if absent; only used on strings that do contain `pat`). -/
def subIdx (pat : List Char) : List Char → Nat
  | [] => 0
  | c :: rest => if pat.isPrefixOf (c :: rest) then 0 else subIdx pat rest + 1

/-- Index of the first occurrence of `pat` in `s`, in characters. -/
def strIdxOf (s pat : String) : Nat := subIdx pat.data s.data

/-- Python `s.startswith(pat)`. -/
def strStartsWith (s pat : String) : Bool := pat.data.isPrefixOf s.data

/-- Python `s.split()` (split on whitespace runs, dropping empty parts). -/
def pySplitWords (s : String) : List String :=
  (s.split (fun c => c.isWhitespace)).filter (fun w => w ≠ "")

/-- Python `str.lower()` (per-character, ASCII-adequate for the keyword sets
involved). -/
def pyLower (s : String) : String := ⟨s.data.map Char.toLower⟩

/-- Python `str.upper()` (per-character). -/
def pyUpper (s : String) : String := ⟨s.data.map Char.toUpper⟩

/-- Python `l[-n:]`. -/
def takeLast {α : Type} (n : Nat) (l : List α) : List α := l.drop (l.length - n)

/-- A single-quote character, written via its code point. -/
def squote : String := String.singleton (Char.ofNat 39)

/-- Python `str(dict)` for a string-keyed counter dict
(insertion-ordered, e.g. `\x7b'fair': 1, 'low': 2\x7d`). -/
def pyDictRepr (l : List (String × Nat)) : String :=
  "\x7b" ++ String.intercalate ", " (l.map (fun p => squote ++ p.1 ++ squote ++ ": " ++ toString p.2)) ++ "\x7d"

/-! ### Numeric helpers (Python `round(x, n)` and `"%.nf"` formatting)

Python's `round` and `%`-formatting round half to even.  On the rational model
this is exact half-even rounding of `q * 10^e`, computed from the numerator and
denominator with integer arithmetic. -/

/-- `q * 10^e` rounded half-to-even to an integer. -/
def pyRoundInt (e : Nat) (q : ℚ) : ℤ :=
  let m : ℤ := q.num * ((10 : ℤ) ^ e)
  let d : ℤ := (q.den : ℤ)
  let f : ℤ := Int.fdiv m d
  let r : ℤ := m - f * d
  if 2 * r < d then f else if d < 2 * r then f + 1 else if f % 2 = 0 then f else f + 1

/-- Python `round(q, e)`: `q` rounded half-to-even to `e` decimal places. -/
def pyRound (e : Nat) (q : ℚ) : ℚ := mkRat (pyRoundInt e q) (10 ^ e)

/-- Zero-padded digits for the fractional part of `"%.3f"`. -/
def pad3 (m : Nat) : String :=
  if m < 10 then "00" ++ toString m else if m < 100 then "0" ++ toString m else toString m

/-- Python `f"\x7bq:.3f\x7d"`: fixed-point rendering with 3 decimals. -/
def format3 (q : ℚ) : String :=
  let n : ℤ := pyRoundInt 3 q
  let a : Nat := n.natAbs
  (if n < 0 then "-" else "") ++ toString (a / 1000) ++ "." ++ pad3 (a % 1000)

/-! ### Data model -/

/-- One normalized result dictionary returned by the vector-search service, as
read by the pipeline (`r.get('filename')`, `r.get('similarity')`, ...).  Every
key the pipeline's helpers access is a field; a present-but-empty filename is
the empty string. -/
structure SearchResult where
  filename : String
  chunk : String
  similarity : ℚ
  quality_score : String
  chunkIndex : ℤ
  vector_database : String
  embedding_method : String
  embedding_type : String
  search_time_ms : ℤ
deriving DecidableEq, Repr

/-- One citation dictionary built by `_extract_citations_from_search`.  The
source stores `relevance` and `similarity_score` as 3-decimal strings and
sorts by `float(...)` of the latter; here both carry the rounded rational
value directly. -/
structure Citation where
  file : String
  type : String
  relevance : ℚ
  similarity_score : ℚ
  chunk_count : Nat
deriving DecidableEq, Repr

/-- One entry of the conversation history list. -/
structure ConversationTurn where
  message : String
  response : String
deriving DecidableEq, Repr

/-- The result dictionary returned by `process_query`.  `prompt_sent` is a
ghost field recording the prompt handed to `_call_ollama` for the main
generation call (empty on the error path, where no call is made); the
wall-clock `processing_time_ms` fields are not modelled. -/
structure QueryResult where
  response : String
  citations : List Citation
  context_chunks_used : Nat
  search_results : List SearchResult
  processing_mode : String
  confidence_score : ℚ
  prompt_sent : String
deriving Repr

/-- `SYSTEM_FILES` from `flask-app/app.py`. -/
def SYSTEM_FILES : List String := ["admin", "system", "default", "config", "haag"]

/-- `_is_system_file`: keyword containment on the lower-cased filename. -/
def is_system_file (filename : String) : Bool :=
  if filename = "" then false
  else SYSTEM_FILES.any (fun keyword => strContains (pyLower filename) keyword)

/-! ### External-call outcomes -/

/-- Outcome of the `requests.post(.../search)` call in `_semantic_search`:
a success response carrying the extracted `results` list, a non-`ok` HTTP
status, or a raised exception (timeout, connection error, malformed JSON). -/
inductive SearchOutcome where
  | ok (results : List SearchResult)
  | httpError (status : ℤ)
  | exn (msg : String)
deriving DecidableEq, Repr

/-- Whether the search call failed (non-success status or exception). -/
def SearchOutcome.failed : SearchOutcome → Bool
  | .ok _ => false
  | .httpError _ => true
  | .exn _ => true

/-- Outcome of the `requests.post(.../api/generate)` call in `_call_ollama`:
a success response carrying the extracted `response` text, a non-`ok` status,
a `requests.exceptions.Timeout`, or another exception. -/
inductive OllamaOutcome where
  | ok (text : String)
  | httpError (status : ℤ) (body : String)
  | timeout
  | exn (msg : String)
deriving DecidableEq, Repr

/-- Whether the generation call failed (anything but a success response). -/
def OllamaOutcome.failed : OllamaOutcome → Bool
  | .ok _ => false
  | _ => true

/-- The per-query external world: the search outcome, the outcome of the
`n`-th Ollama call (fast mode makes one call; detailed mode calls
`_analyze_query` first, then the main generation), the value the confidence
regexes of `_extract_confidence_from_response` extract from the main response
(`none` when no pattern matches — in particular forced for any digit-free
response, since every pattern requires `\d+`), and an exception escaping the
body of `process_query`'s `try` block (`none` in normal operation). -/
structure Env where
  search : SearchOutcome
  ollama : Nat → OllamaOutcome
  parsedConfidence : Option ℚ
  unhandled : Option String

/-! ### Retrieval client -/

/-- `_semantic_search`: returns the payload's `results` on success and `[]` on
any failure (the `except` clause and the non-`ok` branch both return `[]`;
nothing propagates to the caller). -/
def semantic_search : SearchOutcome → List SearchResult
  | .ok results => results
  | .httpError _ => []
  | .exn _ => []

/-! ### Result-set statistics -/

/-- `_get_quality_distribution`: counts per `quality_score`, insertion-ordered
like a Python dict. -/
def bumpCount (l : List (String × Nat)) (k : String) : List (String × Nat) :=
  match l with
  | [] => [(k, 1)]
  | (k₀, n) :: rest => if k₀ = k then (k₀, n + 1) :: rest else (k₀, n) :: bumpCount rest k

def get_quality_distribution (search_results : List SearchResult) : List (String × Nat) :=
  search_results.foldl (fun acc r => bumpCount acc r.quality_score) []

/-- `dict.get(k, 0)` on a quality distribution. -/
def countOf (l : List (String × Nat)) (k : String) : Nat := (l.lookup k).getD 0

/-- The fields of the `_extract_vector_db_info` dictionary that later stages
read (`proxy_url`, an instance-configuration echo, is omitted; the empty-input
branch of the source returns a stub dictionary, rendered here as stub field
values). -/
structure VectorDbInfo where
  type : String
  embedding_method : String
  embedding_type : String
  total_results : Nat
  avg_similarity : ℚ
  quality_distribution : List (String × Nat)
deriving Repr

def extract_vector_db_info (search_results : List SearchResult) : VectorDbInfo :=
  match search_results with
  | [] => ⟨"unknown", "unknown", "unknown", 0, 0, []⟩
  | first :: rest =>
    let all := first :: rest
    ⟨first.vector_database, first.embedding_method, first.embedding_type, all.length,
      pyRound 3 ((all.map (fun r => r.similarity)).sum / (all.length : ℚ)),
      get_quality_distribution all⟩

/-- The `_get_search_performance_metrics` dictionary (the empty-input branch of
the source returns only the first two keys; the remaining fields are 0 there
and unread). -/
structure SearchPerf where
  search_time_ms : ℤ
  results_count : Nat
  avg_similarity : ℚ
  min_similarity : ℚ
  max_similarity : ℚ
deriving Repr

def get_search_performance_metrics (search_results : List SearchResult) : SearchPerf :=
  match search_results with
  | [] => ⟨0, 0, 0, 0, 0⟩
  | first :: rest =>
    let all := first :: rest
    ⟨first.search_time_ms, all.length,
      pyRound 3 ((all.map (fun r => r.similarity)).sum / (all.length : ℚ)),
      (rest.map (fun r => r.similarity)).foldl min first.similarity,
      (rest.map (fun r => r.similarity)).foldl max first.similarity⟩

/-! ### Response analyzer: confidence -/

/-- The similarity step bonus of `_estimate_confidence`. -/
def similarity_bonus (avg_similarity : ℚ) : ℚ :=
  if avg_similarity > 0.8 then 3.5
  else if avg_similarity > 0.6 then 2.5
  else if avg_similarity > 0.4 then 1.5
  else if avg_similarity > 0.25 then 0.5
  else 0

/-- The result-count bonus of `_estimate_confidence`. -/
def count_bonus (result_count : Nat) : ℚ :=
  if result_count ≥ 5 then 1 else if result_count ≥ 3 then 0.5 else 0

/-- The query-length penalty of `_estimate_confidence`
(`query_length = len(query.split())`). -/
def complexity_penalty (query_length : Nat) : ℚ :=
  if query_length > 20 then -1 else if query_length > 15 then -0.5 else 0

/-- `_estimate_confidence`: `3` for an empty result list, otherwise the
weighted heuristic, rounded to one decimal and clamped to `[1, 10]`. -/
def estimate_confidence (search_results : List SearchResult) (query : String) (mode : String) : ℚ :=
  if search_results = [] then 3
  else
    let avg_similarity := (search_results.map (fun r => r.similarity)).sum / (search_results.length : ℚ)
    let result_count := search_results.length
    let base_confidence : ℚ := if mode = "detailed" then 6 else 5
    let query_length := (pySplitWords query).length
    let quality_distribution := get_quality_distribution search_results
    let quality_bonus : ℚ :=
      ((countOf quality_distribution "excellent" : ℚ) * 0.5 +
        (countOf quality_distribution "high" : ℚ) * 0.3) / (search_results.length : ℚ)
    let final_confidence :=
      base_confidence + similarity_bonus avg_similarity + count_bonus result_count +
        complexity_penalty query_length + quality_bonus
    max 1 (min 10 (pyRound 1 final_confidence))

/-- `_extract_confidence_from_response`.  The `parsed` argument stands for the
result of the source's regex scan over `response.lower()` (the four patterns
tried in order, each requiring a digit sequence, with the first successful
`float(...)` conversion winning); `none` means no pattern matched — which is
forced for any digit-free response.  The keyword fallback is modelled
directly on the response text. -/
def extract_confidence_from_response (parsed : Option ℚ) (response : String) : ℚ :=
  match parsed with
  | some score => min 10 (max 1 score)
  | none =>
    let response_lower := pyLower response
    if ["certain", "clear", "definitely", "confident"].any (fun w => strContains response_lower w) then 8
    else if ["likely", "probably", "seems", "appears"].any (fun w => strContains response_lower w) then 6
    else if ["uncertain", "unclear", "might", "possibly"].any (fun w => strContains response_lower w) then 4
    else 7

/-! ### Response analyzer: citations -/

/-- `_get_file_relevance`: 3-decimal mean similarity of the file's chunks,
`0` (`"0.000"`) when the file has no chunks. -/
def get_file_relevance (filename : String) (search_results : List SearchResult) : ℚ :=
  let file_results := search_results.filter (fun r => r.filename = filename)
  if file_results.isEmpty then 0
  else pyRound 3 ((file_results.map (fun r => r.similarity)).sum / (file_results.length : ℚ))

/-- The quantity named by the spec for `Citation.relevance`: the mean
similarity of the given file's retrieved chunks (stated from the spec's
words, for comparison with `get_file_relevance`). -/
def fileMeanSimilarity (filename : String) (search_results : List SearchResult) : ℚ :=
  let file_results := search_results.filter (fun r => r.filename = filename)
  (file_results.map (fun r => r.similarity)).sum / (file_results.length : ℚ)

/-- `_get_file_max_similarity`: 3-decimal maximum similarity of the file's
chunks, `0` when the file has no chunks. -/
def get_file_max_similarity (filename : String) (search_results : List SearchResult) : ℚ :=
  match search_results.filter (fun r => r.filename = filename) with
  | [] => 0
  | first :: rest => pyRound 3 ((rest.map (fun r => r.similarity)).foldl max first.similarity)

/-- `_get_file_chunk_count`. -/
def get_file_chunk_count (filename : String) (search_results : List SearchResult) : Nat :=
  (search_results.filter (fun r => r.filename = filename)).length

/-- The loop body of `_extract_citations_from_search`: the citation built for
one distinct filename, or `none` when the filename is empty or the response
neither shows the `[Source: f]` marker nor the bare filename
case-insensitively. -/
def citation_candidate (response : String) (search_results : List SearchResult)
    (filename : String) : Option Citation :=
  if filename ≠ "" ∧
      (strContains response ("[Source: " ++ filename ++ "]") = true ∨
        strContains (pyLower response) (pyLower filename) = true) then
    some ⟨filename,
      if is_system_file filename then "SYSTEM" else "USER",
      get_file_relevance filename search_results,
      get_file_max_similarity filename search_results,
      get_file_chunk_count filename search_results⟩
  else none

/-- `_extract_citations_from_search`: one candidate citation per distinct
filename of the result set (the source iterates a Python `set`, whose
iteration order is unspecified; first-occurrence order is used here — the
final sort makes the output independent of it up to ties), then stably
sorted descending by `similarity_score`
(Python `list.sort(key=..., reverse=True)`). -/
def extract_citations_from_search (response : String) (search_results : List SearchResult) : List Citation :=
  let filenames := (search_results.map (fun r => r.filename)).dedup
  let citations := filenames.filterMap (citation_candidate response search_results)
  List.insertionSort (fun a b => b.similarity_score ≤ a.similarity_score) citations

/-! ### Context formatter -/

/-- The fixed sentinel returned by `_format_search_results` on an empty
result list. -/
def noContextSentinel : String := "No relevant context found in the prebuilt vector database."

/-- One iteration of the rendering loop of `_format_search_results`
(`for i, result in enumerate(search_results, 1)`). -/
def chunkEntry (vdbType : String) (i : Nat) (r : SearchResult) : String :=
  "--- [CHUNK " ++ toString i ++ "] " ++ r.filename ++ " (#" ++ toString r.chunkIndex ++ ") ---\n" ++
  "Similarity: " ++ format3 r.similarity ++ " | Quality: " ++ pyUpper r.quality_score ++
  " | Vector DB: " ++ vdbType ++ "\n" ++
  "Content: " ++ r.chunk ++ "\n\n"

/-- The rendering loop of `_format_search_results`, accumulating entries in
list order. -/
def renderChunks (vdbType : String) : Nat → List SearchResult → String
  | _, [] => ""
  | i, r :: rest => chunkEntry vdbType i r ++ renderChunks vdbType (i + 1) rest

/-- The header block built by `_format_search_results` before its loop. -/
def searchResultsHeader (search_results : List SearchResult) : String :=
  let total_similarity := (search_results.map (fun r => r.similarity)).sum
  let avg_similarity :=
    if search_results.isEmpty then 0 else total_similarity / (search_results.length : ℚ)
  let vector_db_info := extract_vector_db_info search_results
  let search_perf := get_search_performance_metrics search_results
  "\n--- PREBUILT VECTOR DATABASE SEARCH RESULTS ---\n" ++
  "Vector Database: " ++ pyUpper vector_db_info.type ++ "\n" ++
  "Embedding Method: " ++ vector_db_info.embedding_method ++ "\n" ++
  "Search Performance: " ++ toString search_perf.search_time_ms ++ "ms\n" ++
  "Results: " ++ toString search_results.length ++ " chunks, avg similarity: " ++ format3 avg_similarity ++ "\n" ++
  "Quality Distribution: " ++ pyDictRepr vector_db_info.quality_distribution ++ "\n" ++
  "🚀 Using production-grade vector database with optimized semantic search\n\n"

/-- `_format_search_results`: sentinel for an empty list, otherwise header,
the entries in list order, and the end marker.  The `mode` parameter is
accepted and ignored, as in the source (its body never reads `mode`). -/
def format_search_results (search_results : List SearchResult) (mode : String) : String :=
  if search_results.isEmpty then noContextSentinel
  else
    searchResultsHeader search_results ++
    renderChunks (extract_vector_db_info search_results).type 1 search_results ++
    "--- END VECTORIZED SEARCH RESULTS ---\n"

/-! ### Prompt builder -/

/-- `_format_conversation_history`. -/
def formatConversationEntries : Nat → List ConversationTurn → String
  | _, [] => ""
  | i, entry :: rest =>
    "[" ++ toString (i + 1) ++ "] USER: " ++ entry.message.take 150 ++ "...\n" ++
    "[" ++ toString (i + 1) ++ "] ASSISTANT: " ++ entry.response.take 200 ++ "...\n\n" ++
    formatConversationEntries (i + 1) rest

def format_conversation_history (history : List ConversationTurn) : String :=
  if history.isEmpty then ""
  else
    "\n--- RECENT CONVERSATION CONTEXT ---\n" ++
    formatConversationEntries 0 history ++
    "--- END CONVERSATION CONTEXT ---\n"

/-- The fast-mode prompt template of `_fast_response`. -/
def fast_prompt (conversation_context user_message context_content : String) : String :=
  "Answer the user\x27s question using the provided context and conversation history.\n\n" ++
  conversation_context ++
  "\n\nUSER QUESTION: " ++ user_message ++
  "\n\nVECTORIZED CONTEXT FROM PREBUILT DATABASE:\n" ++ context_content ++
  "\n\nINSTRUCTIONS:\n" ++
  "1. Provide a clear, direct answer based on the vector search results\n" ++
  "2. Cite sources using [Source: filename] format when referencing context\n" ++
  "3. If context is insufficient, say so clearly\n" ++
  "4. Maintain conversation continuity\n" ++
  "5. Be concise but comprehensive\n\n" ++
  "Generate a helpful response:"

/-- The detailed-mode prompt template of `_detailed_response`. -/
def detailed_prompt (analysis conversation_context user_message context_content : String) : String :=
  "Provide a comprehensive response based on the query analysis and vectorized context from our prebuilt database.\n\n" ++
  "QUERY ANALYSIS: " ++ analysis ++
  "\n\n" ++ conversation_context ++
  "\n\nUSER QUESTION: " ++ user_message ++
  "\n\nENHANCED VECTORIZED CONTEXT:\n" ++ context_content ++
  "\n\nDETAILED RESPONSE REQUIREMENTS:\n" ++
  "1. Address the query comprehensively using vector search insights\n" ++
  "2. Reference specific context chunks using [Source: filename] format\n" ++
  "3. Explain your reasoning process and how you used the vectorized context\n" ++
  "4. Assess your confidence in the answer (1-10) based on context quality\n" ++
  "5. Note any limitations or gaps in the available information\n" ++
  "6. Leverage the prebuilt vector database\x27s semantic understanding\n\n" ++
  "Generate a detailed, well-reasoned response:"

/-! ### Generation client -/

/-- Numeric sampling parameters (`model_params`), an `Option` per key the
source probes with `'k' in model_params`.  The source's `float`/`int`
conversions cannot fail on these typed values, so the `except` arm of
`_prepare_model_options` (which silently stops processing the remaining
keys) is unreachable in this model. -/
structure ModelParams where
  temperature : Option ℚ
  top_p : Option ℚ
  top_k : Option ℤ
  repeat_penalty : Option ℚ
  seed : Option ℤ
  num_predict : Option ℤ
deriving DecidableEq, Repr

/-- The `options` dictionary handed to the Ollama payload. -/
structure OllamaOptions where
  temperature : Option ℚ
  top_p : Option ℚ
  top_k : Option ℤ
  repeat_penalty : Option ℚ
  seed : Option ℤ
  num_predict : Option ℤ
deriving DecidableEq, Repr

/-- `_prepare_model_options`: clamp each present range-bounded key, copy
`seed` unless it is the sentinel `-1`, and floor `num_predict` at 1 unless it
is the sentinel `-1`. -/
def prepare_model_options (model_params : ModelParams) : OllamaOptions :=
  { temperature := model_params.temperature.map (fun t => max 0 (min 2 t)),
    top_p := model_params.top_p.map (fun v => max 0 (min 1 v)),
    top_k := model_params.top_k.map (fun v => max 1 (min 100 v)),
    repeat_penalty := model_params.repeat_penalty.map (fun v => max 0.5 (min 2 v)),
    seed := match model_params.seed with
      | some s => if s ≠ -1 then some s else none
      | none => none,
    num_predict := match model_params.num_predict with
      | some n => if n ≠ -1 then some (max 1 n) else none
      | none => none }

/-- `_call_ollama`: the generated text on success, otherwise one of the three
error strings (non-`ok` status, `Timeout`, other exception) — the function
returns in every branch and never raises.  The request payload (model name,
prompt, `prepare_model_options`) only influences which `OllamaOutcome` the
backend produces, which is already the argument. -/
def call_ollama : OllamaOutcome → String
  | .ok text => text
  | .httpError status _ => "Error: Ollama API returned " ++ toString status
  | .timeout => "Error: Response generation timed out"
  | .exn msg => "Error: Unable to generate response - " ++ msg

/-! ### Query orchestrator -/

/-- `_fast_response` (`model` and `model_params` shape only the Ollama payload,
whose effect is carried by `env.ollama`). -/
def fast_response (env : Env) (model user_message : String) (model_params : ModelParams)
    (conversation_history : List ConversationTurn) : QueryResult :=
  let relevant_chunks := semantic_search env.search
  let context_content := format_search_results relevant_chunks "fast"
  let conversation_context :=
    if conversation_history.isEmpty then ""
    else format_conversation_history (takeLast 3 conversation_history)
  let prompt := fast_prompt conversation_context user_message context_content
  let response := call_ollama (env.ollama 0)
  let citations := extract_citations_from_search response relevant_chunks
  let confidence := estimate_confidence relevant_chunks user_message "fast"
  ⟨response, citations, relevant_chunks.length, relevant_chunks, "fast", confidence, prompt⟩

/-- `_detailed_response`: `_analyze_query` issues the first Ollama call
(`env.ollama 0`), the main generation the second (`env.ollama 1`); confidence
comes from `_extract_confidence_from_response` on the generated text. -/
def detailed_response (env : Env) (model user_message : String) (model_params : ModelParams)
    (conversation_history : List ConversationTurn) : QueryResult :=
  let analysis := call_ollama (env.ollama 0)
  let relevant_chunks := semantic_search env.search
  let context_content := format_search_results relevant_chunks "detailed"
  let conversation_context :=
    if conversation_history.isEmpty then ""
    else format_conversation_history (takeLast 5 conversation_history)
  let prompt := detailed_prompt analysis conversation_context user_message context_content
  let response := call_ollama (env.ollama 1)
  let citations := extract_citations_from_search response relevant_chunks
  let confidence := extract_confidence_from_response env.parsedConfidence response
  ⟨response, citations, relevant_chunks.length, relevant_chunks, "detailed", confidence, prompt⟩

/-- `process_query`: dispatch on `fast_mode` inside a `try` whose `except`
branch (an exception escaping the helpers, `env.unhandled`) produces the
error result with `processing_mode = 'error'` and `confidence_score = 1`. -/
def process_query (env : Env) (model user_message : String) (model_params : ModelParams)
    (conversation_history : List ConversationTurn) (fast_mode : Bool) : QueryResult :=
  match env.unhandled with
  | some e =>
    ⟨"I apologize, but I encountered an error while processing your query: " ++ e,
      [], 0, [], "error", 1, ""⟩
  | none =>
    if fast_mode then fast_response env model user_message model_params conversation_history
    else detailed_response env model user_message model_params conversation_history

/-! ### System context cache

Modelled from the spec: no `get_system_context` / System Context Cache exists
anywhere under the repository sources (the spec describes it in §4.3 and §6;
only this natural-language contract is available).  Following the spec's
words: a process-wide singleton `SystemContextSnapshot \x7b text, generated_at \x7d`,
lazily initialized, invalid after a fixed TTL of 300 seconds and regenerated
synchronously on the next access; the `LOADING` step issues one retrieval
query whose derived description is the new text.  `deriveContext` stands for
that retrieval-and-parse step; the returned `Nat` counts the retrieval calls
the access issued. -/
structure CacheState where
  snapshot : Option (String × ℚ)
deriving Repr

/-- Modelled from the spec: the TTL of the System Context Cache (300 s). -/
def CACHE_TTL : ℚ := 300

/-- Modelled from the spec: `get_system_context()`.  A fresh snapshot
(accessed strictly before `generated_at + TTL`) is returned as-is with no
retrieval call; otherwise the cache refreshes synchronously with exactly one
retrieval call and stamps the new snapshot with the access time. -/
def get_system_context (deriveContext : Unit → String) (now : ℚ) (st : CacheState) :
    String × CacheState × Nat :=
  match st.snapshot with
  | some (text, generated_at) =>
    if now < generated_at + CACHE_TTL then (text, st, 0)
    else
      let text' := deriveContext ()
      (text', ⟨some (text', now)⟩, 1)
  | none =>
    let text' := deriveContext ()
    (text', ⟨some (text', now)⟩, 1)

/-! ### Concrete instances analysed below -/

/-- The retrieval set of the citation-order analysis: `a.txt` has two chunks
(similarities 0.9 and 0.1 — mean 0.5, max 0.9), `b.txt` one chunk
(similarity 0.6 — mean 0.6, max 0.6). -/
def c8Results : List SearchResult :=
  [⟨"a.txt", "t1", mkRat 9 10, "excellent", 0, "qdrant", "local", "dense", 5⟩,
   ⟨"a.txt", "t2", mkRat 1 10, "low", 1, "qdrant", "local", "dense", 5⟩,
   ⟨"b.txt", "t3", mkRat 3 5, "high", 0, "qdrant", "local", "dense", 5⟩]

/-- The chunk pair of the formatting-order analysis: a user chunk with high
similarity listed first, a system chunk (`config` keyword) second. -/
def c2User : SearchResult :=
  ⟨"notes.txt", "alpha", mkRat 19 20, "excellent", 0, "qdrant", "local", "dense", 12⟩

def c2System : SearchResult :=
  ⟨"config.json", "beta", mkRat 1 2, "good", 1, "qdrant", "local", "dense", 12⟩

/-! ## Shared lemmas -/

lemma le_pyRoundInt {e : Nat} {k : ℤ} {q : ℚ} (h : (k : ℚ) ≤ q) :
    k * 10 ^ e ≤ pyRoundInt e q := by
  unfold pyRoundInt
  dsimp only
  have hd : (0 : ℤ) < (q.den : ℤ) := by exact_mod_cast q.pos
  set m : ℤ := q.num * (10 : ℤ) ^ e with hm_def
  set d : ℤ := (q.den : ℤ) with hd_def
  set F : ℤ := Int.fdiv m d with hF_def
  have h2 : d * F + Int.fmod m d = m := Int.fdiv_add_fmod m d
  have h3 : Int.fmod m d < d := Int.fmod_lt_of_pos m hd
  have h5 : 0 ≤ Int.fmod m d := Int.fmod_nonneg' m hd
  have hnum : k * d ≤ q.num := by
    have hq : (k : ℚ) ≤ (q.num : ℚ) / (q.den : ℚ) := by rwa [Rat.num_div_den]
    have hden : (0 : ℚ) < (q.den : ℚ) := by exact_mod_cast q.pos
    rw [le_div_iff₀ hden] at hq
    exact_mod_cast hq
  have hm : k * 10 ^ e * d ≤ m := by
    calc k * 10 ^ e * d = k * d * 10 ^ e := by ring
    _ ≤ q.num * 10 ^ e := mul_le_mul_of_nonneg_right hnum (by positivity)
    _ = m := rfl
  have hf : k * 10 ^ e ≤ F := by nlinarith [hm, h2, h3, h5, hd]
  have hFd : F * d = d * F := mul_comm F d
  split
  · exact hf
  · split
    · omega
    · split
      · exact hf
      · omega

lemma le_pyRound {e : Nat} {k : ℤ} {q : ℚ} (h : (k : ℚ) ≤ q) :
    (k : ℚ) ≤ pyRound e q := by
  unfold pyRound
  rw [Rat.mkRat_eq_div]
  have h10 : (0 : ℚ) < ((10 ^ e : ℕ) : ℚ) := by positivity
  rw [le_div_iff₀ h10]
  have h1 := le_pyRoundInt (e := e) h
  calc (k : ℚ) * ((10 ^ e : ℕ) : ℚ) = ((k * 10 ^ e : ℤ) : ℚ) := by push_cast; ring
  _ ≤ ((pyRoundInt e q : ℤ) : ℚ) := by exact_mod_cast h1

lemma estimate_confidence_empty (query mode : String) :
    estimate_confidence [] query mode = 3 := rfl

lemma estimate_confidence_bounds (search_results : List SearchResult) (query mode : String) :
    1 ≤ estimate_confidence search_results query mode ∧
      estimate_confidence search_results query mode ≤ 10 := by
  unfold estimate_confidence
  split
  · norm_num
  · constructor
    · exact le_max_left 1 _
    · exact max_le (by norm_num) (min_le_left _ _)

lemma extract_confidence_bounds (parsed : Option ℚ) (response : String) :
    1 ≤ extract_confidence_from_response parsed response ∧
      extract_confidence_from_response parsed response ≤ 10 := by
  unfold extract_confidence_from_response
  match parsed with
  | some score =>
    refine ⟨le_min_iff.mpr ⟨by norm_num, le_max_left 1 _⟩, min_le_left _ _⟩
  | none =>
    dsimp only
    split
    · norm_num
    · split
      · norm_num
      · split <;> norm_num

lemma similarity_bonus_nonneg (avg : ℚ) : 0 ≤ similarity_bonus avg := by
  unfold similarity_bonus
  split
  · norm_num
  · split
    · norm_num
    · split
      · norm_num
      · split <;> norm_num

lemma count_bonus_nonneg (n : Nat) : 0 ≤ count_bonus n := by
  unfold count_bonus
  split
  · norm_num
  · split <;> norm_num

lemma complexity_penalty_ge (n : Nat) : -1 ≤ complexity_penalty n := by
  unfold complexity_penalty
  split
  · norm_num
  · split <;> norm_num

lemma clamp_round_lower (k : ℤ) (x : ℚ) (hk : (k : ℚ) ≤ 10) (hx : (k : ℚ) ≤ x) :
    (k : ℚ) ≤ max 1 (min 10 (pyRound 1 x)) :=
  le_max_of_le_right (le_min_iff.mpr ⟨hk, le_pyRound hx⟩)

lemma estimate_confidence_lower (search_results : List SearchResult) (query mode : String)
    (h : search_results ≠ []) :
    (if mode = "detailed" then (5 : ℚ) else 4) ≤ estimate_confidence search_results query mode := by
  unfold estimate_confidence
  rw [if_neg h]
  dsimp only
  have hq : (0 : ℚ) ≤
      ((countOf (get_quality_distribution search_results) "excellent" : ℚ) * 0.5 +
        (countOf (get_quality_distribution search_results) "high" : ℚ) * 0.3) /
        (search_results.length : ℚ) := by positivity
  have hsim := similarity_bonus_nonneg
    ((search_results.map (fun r => r.similarity)).sum / (search_results.length : ℚ))
  have hcount := count_bonus_nonneg search_results.length
  have hpen := complexity_penalty_ge (pySplitWords query).length
  split
  · have hc : ((5 : ℤ) : ℚ) = (5 : ℚ) := by norm_num
    rw [← hc]
    apply clamp_round_lower
    · norm_num
    · push_cast
      linarith
  · have hc : ((4 : ℤ) : ℚ) = (4 : ℚ) := by norm_num
    rw [← hc]
    apply clamp_round_lower
    · norm_num
    · push_cast
      linarith

/-! ## Claim theorems -/

/-- C6: every result of `process_query` — fast path, detailed path (parsed or
fallback confidence), or error path — has `confidence_score` in `[1, 10]`. -/
theorem confidence_score_in_bounds (env : Env) (model user_message : String)
    (model_params : ModelParams) (conversation_history : List ConversationTurn)
    (fast_mode : Bool) :
    1 ≤ (process_query env model user_message model_params conversation_history fast_mode).confidence_score ∧
      (process_query env model user_message model_params conversation_history fast_mode).confidence_score ≤ 10 := by
  unfold process_query
  match env.unhandled with
  | some e => exact ⟨le_refl 1, by norm_num⟩
  | none =>
    dsimp only
    cases fast_mode with
    | true => exact estimate_confidence_bounds _ _ _
    | false => exact extract_confidence_bounds _ _

/-- C9: for a fully-populated numeric parameter map, every range-bounded value
is clamped into its range (never rejected), and `seed` / `num_predict` are
omitted from the options exactly when they equal the sentinel `-1`. -/
theorem model_options_clamped (t top_p : ℚ) (top_k : ℤ) (rp : ℚ) (s np : ℤ) :
    prepare_model_options ⟨some t, some top_p, some top_k, some rp, some s, some np⟩ =
      ⟨some (max 0 (min 2 t)), some (max 0 (min 1 top_p)), some (max 1 (min 100 top_k)),
        some (max 0.5 (min 2 rp)),
        if s = -1 then none else some s,
        if np = -1 then none else some (max 1 np)⟩ ∧
    (0 ≤ max 0 (min 2 t) ∧ max 0 (min 2 t) ≤ 2) ∧
    (0 ≤ max 0 (min 1 top_p) ∧ max 0 (min 1 top_p) ≤ 1) ∧
    (1 ≤ max 1 (min 100 top_k) ∧ max 1 (min 100 top_k) ≤ 100) ∧
    ((0.5 : ℚ) ≤ max 0.5 (min 2 rp) ∧ max 0.5 (min 2 rp) ≤ 2) := by
  refine ⟨?_, ?_, ?_, ?_, ?_⟩
  · unfold prepare_model_options
    simp only [Option.map_some]
    by_cases hs : s = -1 <;> by_cases hn : np = -1 <;> simp [hs, hn]
  · exact ⟨le_max_left _ _, max_le (by norm_num) (min_le_left _ _)⟩
  · exact ⟨le_max_left _ _, max_le (by norm_num) (min_le_left _ _)⟩
  · exact ⟨le_max_left _ _, max_le (by norm_num) (min_le_left _ _)⟩
  · exact ⟨le_max_left _ _, max_le (by norm_num) (min_le_left _ _)⟩

/-- C10: on any non-empty retrieval result the heuristic confidence is at
least 4 in fast mode and at least 5 in detailed mode — strictly above the
fixed value 3 returned for an empty result list. -/
theorem heuristic_confidence_nonempty_floor (search_results : List SearchResult) (query : String)
    (h : search_results ≠ []) :
    4 ≤ estimate_confidence search_results query "fast" ∧
      5 ≤ estimate_confidence search_results query "detailed" ∧
      3 < estimate_confidence search_results query "fast" ∧
      3 < estimate_confidence search_results query "detailed" := by
  have hfast := estimate_confidence_lower search_results query "fast" h
  have hdet := estimate_confidence_lower search_results query "detailed" h
  rw [if_neg (by decide)] at hfast
  rw [if_pos rfl] at hdet
  exact ⟨hfast, hdet, by linarith, by linarith⟩

/-- Witness for C10 at a one-chunk result list. -/
theorem heuristic_confidence_nonempty_floor_witness :
    ([(⟨"a.txt", "text", mkRat 1 2, "fair", 0, "qdrant", "local", "dense", 5⟩ : SearchResult)] ≠ []) ∧
      4 ≤ estimate_confidence [⟨"a.txt", "text", mkRat 1 2, "fair", 0, "qdrant", "local", "dense", 5⟩] "What is X?" "fast" :=
  ⟨by decide, (heuristic_confidence_nonempty_floor _ "What is X?" (by decide)).1⟩

/-- C1 counterexample: in detailed mode with an empty retrieval result and a
blank generated response, the confidence is the fallback 7, not 3 — the
empty-retrieval bypass exists only on the fast path. -/
theorem empty_retrieval_detailed_confidence_ne_3 :
    (process_query ⟨.ok [], fun _ => .ok "", none, none⟩ "llama2" "What is X?"
        ⟨none, none, none, none, none, none⟩ [] false).confidence_score ≠ 3 := by
  decide

/-- C1 amended: with an empty retrieval result, fast mode returns confidence
exactly 3 (the empty-result bypass of `_estimate_confidence`); detailed mode
instead derives confidence from the generated text. -/
theorem fast_empty_retrieval_confidence_3 (env : Env) (model user_message : String)
    (model_params : ModelParams) (conversation_history : List ConversationTurn)
    (hu : env.unhandled = none) (hs : semantic_search env.search = []) :
    (process_query env model user_message model_params conversation_history true).confidence_score = 3 := by
  unfold process_query
  rw [hu]
  unfold fast_response
  dsimp only
  rw [hs]
  rfl

/-- Witness for the amended C1 at a concrete environment. -/
theorem fast_empty_retrieval_confidence_3_witness :
    (Env.mk (.ok []) (fun _ => .ok "fine") none none).unhandled = none ∧
      semantic_search (Env.mk (.ok []) (fun _ => .ok "fine") none none).search = [] ∧
      (process_query (Env.mk (.ok []) (fun _ => .ok "fine") none none) "llama2" "What is X?"
          ⟨none, none, none, none, none, none⟩ [] true).confidence_score = 3 :=
  ⟨rfl, rfl, fast_empty_retrieval_confidence_3 _ "llama2" "What is X?" _ [] rfl rfl⟩

lemma isPrefixOf_append {p a b : List Char} (h : p.isPrefixOf a = true) :
    p.isPrefixOf (a ++ b) = true := by
  induction p generalizing a with
  | nil => simp [List.isPrefixOf]
  | cons x xs ih =>
    cases a with
    | nil => simp [List.isPrefixOf] at h
    | cons y ys =>
      simp only [List.isPrefixOf, List.cons_append, Bool.and_eq_true, beq_iff_eq] at h ⊢
      exact ⟨h.1, ih h.2⟩

lemma strStartsWith_append (pre suf pat : String) (h : strStartsWith pre pat = true) :
    strStartsWith (pre ++ suf) pat = true := by
  unfold strStartsWith at h ⊢
  rw [String.data_append]
  exact isPrefixOf_append h

lemma call_ollama_error_string (o : OllamaOutcome) (h : o.failed = true) :
    strStartsWith (call_ollama o) "Error" = true := by
  cases o with
  | ok t => simp [OllamaOutcome.failed] at h
  | httpError s b => exact strStartsWith_append "Error: Ollama API returned " _ _ (by decide)
  | timeout => decide
  | exn m => exact strStartsWith_append "Error: Unable to generate response - " _ _ (by decide)

/-- C3 counterexample: a generation timeout in fast mode yields a result whose
`processing_mode` is `fast` (not `error`) and whose confidence comes from the
heuristic (3 here, not 1); only the error text itself lands in `response`. -/
theorem generation_timeout_mode_not_error :
    (process_query ⟨.ok [], fun _ => .timeout, none, none⟩ "llama2" "What is X?"
        ⟨none, none, none, none, none, none⟩ [] true).processing_mode ≠ "error" ∧
      (process_query ⟨.ok [], fun _ => .timeout, none, none⟩ "llama2" "What is X?"
        ⟨none, none, none, none, none, none⟩ [] true).confidence_score ≠ 1 ∧
      (process_query ⟨.ok [], fun _ => .timeout, none, none⟩ "llama2" "What is X?"
        ⟨none, none, none, none, none, none⟩ [] true).response =
        "Error: Response generation timed out" := by
  refine ⟨by decide, by decide, by decide⟩

/-- C3 amended: when the main generation call fails, `_call_ollama` swallows
the failure and returns a human-readable `Error: ...` string, which becomes
`response_text` of a result that keeps the mode's own `processing_mode`
(never `error`); the `error`/confidence-1 result arises only from an
exception escaping `process_query`'s own body. -/
theorem generation_failure_inline_error (env : Env) (model user_message : String)
    (model_params : ModelParams) (conversation_history : List ConversationTurn)
    (fast_mode : Bool) (hu : env.unhandled = none)
    (hf : (env.ollama (if fast_mode then 0 else 1)).failed = true) :
    strStartsWith (process_query env model user_message model_params conversation_history fast_mode).response
        "Error" = true ∧
      (process_query env model user_message model_params conversation_history fast_mode).processing_mode =
        (if fast_mode then "fast" else "detailed") ∧
      (process_query env model user_message model_params conversation_history fast_mode).processing_mode ≠
        "error" := by
  unfold process_query
  rw [hu]
  cases fast_mode with
  | true =>
    refine ⟨call_ollama_error_string _ hf, rfl, ?_⟩
    show ("fast" : String) ≠ "error"
    decide
  | false =>
    refine ⟨call_ollama_error_string _ hf, rfl, ?_⟩
    show ("detailed" : String) ≠ "error"
    decide

/-- Witness for the amended C3 at a concrete timed-out environment. -/
theorem generation_failure_inline_error_witness :
    (Env.mk (.ok []) (fun _ => .timeout) none none).unhandled = none ∧
      ((Env.mk (.ok []) (fun _ => .timeout) none none).ollama (if false then 0 else 1)).failed = true ∧
      (process_query (Env.mk (.ok []) (fun _ => .timeout) none none) "llama2" "What is X?"
          ⟨none, none, none, none, none, none⟩ [] false).processing_mode = "detailed" := by
  refine ⟨rfl, rfl, ?_⟩
  have h := generation_failure_inline_error (Env.mk (.ok []) (fun _ => .timeout) none none)
    "llama2" "What is X?" ⟨none, none, none, none, none, none⟩ [] false rfl rfl
  exact h.2.1

lemma isPrefixOf_self {p : List Char} : p.isPrefixOf p = true := by
  induction p with
  | nil => rfl
  | cons x xs ih => simp [List.isPrefixOf, ih]

lemma listSub_of_isPrefixOf {p s : List Char} (h : p.isPrefixOf s = true) : listSub p s = true := by
  cases s with
  | nil =>
    cases p with
    | nil => rfl
    | cons x xs => simp [List.isPrefixOf] at h
  | cons c rest => simp [listSub, h]

lemma listSub_append_right {p s : List Char} (t : List Char) (h : listSub p s = true) :
    listSub p (t ++ s) = true := by
  induction t with
  | nil => exact h
  | cons c cs ih => simp [listSub, ih]

lemma strContains_append_right (a b pat : String) (h : strContains b pat = true) :
    strContains (a ++ b) pat = true := by
  unfold strContains at h ⊢
  rw [String.data_append]
  exact listSub_append_right a.data h

lemma listSub_append_left {p s : List Char} (t : List Char) (h : listSub p s = true) :
    listSub p (s ++ t) = true := by
  induction s with
  | nil =>
    cases p with
    | nil =>
      simp only [List.nil_append]
      cases t with
      | nil => rfl
      | cons c cs => simp [listSub, List.isPrefixOf]
    | cons x xs => simp [listSub] at h
  | cons c cs ih =>
    simp only [listSub, Bool.or_eq_true, List.cons_append] at h ⊢
    rcases h with h | h
    · exact Or.inl (isPrefixOf_append h)
    · exact Or.inr (ih h)

lemma strContains_append_left (a b pat : String) (h : strContains a pat = true) :
    strContains (a ++ b) pat = true := by
  unfold strContains at h ⊢
  rw [String.data_append]
  exact listSub_append_left b.data h

lemma strContains_refl (pat : String) : strContains pat pat = true :=
  listSub_of_isPrefixOf isPrefixOf_self

/-- C5: if the vector-search call fails, retrieval yields `[]` without raising,
and `process_query` still returns a non-error result with zero chunks used and
the fixed no-context sentinel inside the prompt it sends for generation. -/
theorem retrieval_failure_degrades_gracefully (env : Env) (model user_message : String)
    (model_params : ModelParams) (conversation_history : List ConversationTurn)
    (fast_mode : Bool) (hu : env.unhandled = none) (hs : env.search.failed = true) :
    semantic_search env.search = [] ∧
      (process_query env model user_message model_params conversation_history fast_mode).processing_mode ≠
        "error" ∧
      (process_query env model user_message model_params conversation_history fast_mode).context_chunks_used = 0 ∧
      strContains (process_query env model user_message model_params conversation_history fast_mode).prompt_sent
        noContextSentinel = true := by
  have hsem : semantic_search env.search = [] := by
    cases h : env.search with
    | ok results => rw [h] at hs; simp [SearchOutcome.failed] at hs
    | httpError s => rfl
    | exn m => rfl
  refine ⟨hsem, ?_, ?_, ?_⟩
  all_goals unfold process_query
  all_goals rw [hu]
  all_goals cases fast_mode
  · show ("detailed" : String) ≠ "error"
    decide
  · show ("fast" : String) ≠ "error"
    decide
  · show (semantic_search env.search).length = 0
    rw [hsem]
    rfl
  · show (semantic_search env.search).length = 0
    rw [hsem]
    rfl
  · show strContains
      (detailed_prompt _ _ user_message (format_search_results (semantic_search env.search) "detailed"))
      noContextSentinel = true
    rw [hsem]
    show strContains (detailed_prompt _ _ user_message noContextSentinel) noContextSentinel = true
    unfold detailed_prompt
    repeat
      first
      | exact strContains_append_right _ _ _ (strContains_refl _)
      | apply strContains_append_left
  · show strContains
      (fast_prompt _ user_message (format_search_results (semantic_search env.search) "fast"))
      noContextSentinel = true
    rw [hsem]
    show strContains (fast_prompt _ user_message noContextSentinel) noContextSentinel = true
    unfold fast_prompt
    repeat
      first
      | exact strContains_append_right _ _ _ (strContains_refl _)
      | apply strContains_append_left

/-- Witness for C5 at a concrete failed search. -/
theorem retrieval_failure_degrades_gracefully_witness :
    (Env.mk (.httpError 500) (fun _ => .ok "answer") none none).unhandled = none ∧
      (Env.mk (.httpError 500) (fun _ => .ok "answer") none none).search.failed = true ∧
      (process_query (Env.mk (.httpError 500) (fun _ => .ok "answer") none none) "llama2" "What is X?"
          ⟨none, none, none, none, none, none⟩ [] true).context_chunks_used = 0 := by
  refine ⟨rfl, rfl, ?_⟩
  have h := retrieval_failure_degrades_gracefully (Env.mk (.httpError 500) (fun _ => .ok "answer") none none)
    "llama2" "What is X?" ⟨none, none, none, none, none, none⟩ [] true rfl rfl
  exact h.2.2.1

/-- C4 (spec-modelled): after a first `get_system_context` access loads the
cache, a second access within the TTL window returns the identical string and
issues no retrieval call; an access at or after TTL expiry issues exactly one
refreshing retrieval call. -/
theorem system_context_cache_ttl (deriveContext : Unit → String) (t0 t1 t2 : ℚ)
    (h1 : t1 < t0 + CACHE_TTL) (h2 : t0 + CACHE_TTL ≤ t2) :
    (get_system_context deriveContext t0 ⟨none⟩).2.2 = 1 ∧
      (get_system_context deriveContext t1 (get_system_context deriveContext t0 ⟨none⟩).2.1).1 =
        (get_system_context deriveContext t0 ⟨none⟩).1 ∧
      (get_system_context deriveContext t1 (get_system_context deriveContext t0 ⟨none⟩).2.1).2.2 = 0 ∧
      (get_system_context deriveContext t2 (get_system_context deriveContext t0 ⟨none⟩).2.1).2.2 = 1 := by
  have hst : get_system_context deriveContext t0 ⟨none⟩ =
      (deriveContext (), ⟨some (deriveContext (), t0)⟩, 1) := rfl
  rw [hst]
  refine ⟨rfl, ?_, ?_, ?_⟩
  · simp only [get_system_context]
    rw [if_pos h1]
  · simp only [get_system_context]
    rw [if_pos h1]
  · simp only [get_system_context]
    rw [if_neg (not_lt.mpr h2)]

/-- Witness for C4 at concrete access times 0, 10 and 400. -/
theorem system_context_cache_ttl_witness :
    ((10 : ℚ) < 0 + CACHE_TTL) ∧ ((0 : ℚ) + CACHE_TTL ≤ 400) ∧
      (get_system_context (fun _ => "ctx") 10
          (get_system_context (fun _ => "ctx") 0 ⟨none⟩).2.1).2.2 = 0 := by
  refine ⟨by norm_num [CACHE_TTL], by norm_num [CACHE_TTL], ?_⟩
  exact (system_context_cache_ttl (fun _ => "ctx") 0 10 400 (by norm_num [CACHE_TTL])
    (by norm_num [CACHE_TTL])).2.2.1

lemma citation_candidate_eq {response : String} {search_results : List SearchResult}
    {filename : String} {c : Citation}
    (h : citation_candidate response search_results filename = some c) :
    c = ⟨filename,
      if is_system_file filename then "SYSTEM" else "USER",
      get_file_relevance filename search_results,
      get_file_max_similarity filename search_results,
      get_file_chunk_count filename search_results⟩ := by
  unfold citation_candidate at h
  split at h
  · exact (Option.some.injEq _ _ ▸ h).symm
  · cases h

/-- C7: every citation's `file` is the filename of some chunk of the same
query's retrieval set, and the citation list holds at most one entry per
filename. -/
theorem citations_drawn_from_results (response : String) (search_results : List SearchResult) :
    ((extract_citations_from_search response search_results).all
        (fun c => search_results.any (fun r => r.filename == c.file))) = true ∧
      List.Pairwise (fun a b : Citation => a.file ≠ b.file)
        (extract_citations_from_search response search_results) := by
  unfold extract_citations_from_search
  have hperm := List.perm_insertionSort (fun a b : Citation => b.similarity_score ≤ a.similarity_score)
    (((search_results.map (fun r => r.filename)).dedup).filterMap
      (citation_candidate response search_results))
  constructor
  · rw [List.all_eq_true]
    intro c hc
    have hc' := hperm.mem_iff.mp hc
    rcases List.mem_filterMap.mp hc' with ⟨fn, hfn, hcc⟩
    have hfile : c.file = fn := by rw [citation_candidate_eq hcc]
    rcases List.mem_map.mp (List.mem_dedup.mp hfn) with ⟨r, hr, hrf⟩
    rw [List.any_eq_true]
    refine ⟨r, hr, ?_⟩
    rw [hfile, ← hrf]
    simp
  · have hnodup : ((search_results.map (fun r => r.filename)).dedup).Pairwise (· ≠ ·) :=
      List.nodup_dedup _
    have hpw : List.Pairwise (fun a b : Citation => a.file ≠ b.file)
        (((search_results.map (fun r => r.filename)).dedup).filterMap
          (citation_candidate response search_results)) :=
      List.Pairwise.filterMap (citation_candidate response search_results)
        (fun a a' hne b hb b' hb' => by
          rw [Option.mem_def] at hb hb'
          rw [citation_candidate_eq hb, citation_candidate_eq hb']
          exact hne) hnodup
    exact (hperm.pairwise_iff (fun h => h.symm)).mpr hpw

lemma get_file_relevance_eq (filename : String) (search_results : List SearchResult) :
    get_file_relevance filename search_results =
      pyRound 3 (fileMeanSimilarity filename search_results) := by
  unfold get_file_relevance fileMeanSimilarity
  dsimp only
  split
  · rename_i hemp
    rw [List.isEmpty_iff] at hemp
    rw [hemp]
    show (0 : ℚ) = pyRound 3 (([] : List ℚ).sum / ((0 : ℕ) : ℚ))
    norm_num [pyRound, pyRoundInt]
  · rfl

/-- C8 amended: every citation's `relevance` equals the mean similarity of
that file's chunks rounded to 3 decimals (the `"%.3f"` rendering of the
source), but the list is sorted descending by `similarity_score` — each
file's maximum chunk similarity — not by `relevance`. -/
theorem citation_relevance_mean_sorted_by_max (response : String)
    (search_results : List SearchResult) :
    (extract_citations_from_search response search_results).map (fun c => (c.file, c.relevance)) =
      (extract_citations_from_search response search_results).map
        (fun c => (c.file, pyRound 3 (fileMeanSimilarity c.file search_results))) ∧
      List.Pairwise (fun a b : Citation => b.similarity_score ≤ a.similarity_score)
        (extract_citations_from_search response search_results) := by
  constructor
  · apply List.map_congr_left
    intro c hc
    unfold extract_citations_from_search at hc
    have hperm := List.perm_insertionSort (fun a b : Citation => b.similarity_score ≤ a.similarity_score)
      (((search_results.map (fun r => r.filename)).dedup).filterMap
        (citation_candidate response search_results))
    rcases List.mem_filterMap.mp (hperm.mem_iff.mp hc) with ⟨fn, hfn, hcc⟩
    have hc' := citation_candidate_eq hcc
    have hfile : c.file = fn := by rw [hc']
    have hrel : c.relevance = get_file_relevance fn search_results := by rw [hc']
    rw [hrel, hfile, get_file_relevance_eq]
  · unfold extract_citations_from_search
    haveI : IsTotal Citation (fun a b : Citation => b.similarity_score ≤ a.similarity_score) :=
      ⟨fun a b => le_total b.similarity_score a.similarity_score⟩
    haveI : IsTrans Citation (fun a b : Citation => b.similarity_score ≤ a.similarity_score) :=
      ⟨fun a b c hab hbc => le_trans hbc hab⟩
    exact List.sorted_insertionSort _ _

/-- C8 counterexample: the citation list comes out as `a.txt` before `b.txt`
(sorted by maximum similarity 0.9 > 0.6), yet `a.txt`'s relevance 0.5 is
strictly below `b.txt`'s 0.6 — so the list is not sorted descending by
relevance. -/
theorem citation_sort_not_by_relevance :
    (extract_citations_from_search "see a.txt and b.txt" c8Results).map (fun c => c.file) =
      ["a.txt", "b.txt"] ∧
      (extract_citations_from_search "see a.txt and b.txt" c8Results).map (fun c => c.relevance) =
        [get_file_relevance "a.txt" c8Results, get_file_relevance "b.txt" c8Results] ∧
      get_file_relevance "a.txt" c8Results < get_file_relevance "b.txt" c8Results := by
  refine ⟨by decide, rfl, ?_⟩
  have ha : fileMeanSimilarity "a.txt" c8Results = mkRat 1 2 := by
    unfold fileMeanSimilarity
    rw [show (c8Results.filter (fun r => r.filename = "a.txt")) =
      [⟨"a.txt", "t1", mkRat 9 10, "excellent", 0, "qdrant", "local", "dense", 5⟩,
       ⟨"a.txt", "t2", mkRat 1 10, "low", 1, "qdrant", "local", "dense", 5⟩] from by decide]
    simp only [List.map_cons, List.map_nil, List.sum_cons, List.sum_nil, List.length_cons,
      List.length_nil]
    push_cast
    rw [Rat.mkRat_eq_div]
    norm_num
  have hb : fileMeanSimilarity "b.txt" c8Results = mkRat 3 5 := by
    unfold fileMeanSimilarity
    rw [show (c8Results.filter (fun r => r.filename = "b.txt")) =
      [⟨"b.txt", "t3", mkRat 3 5, "high", 0, "qdrant", "local", "dense", 5⟩] from by decide]
    simp only [List.map_cons, List.map_nil, List.sum_cons, List.sum_nil, List.length_cons,
      List.length_nil]
    push_cast
    rw [Rat.mkRat_eq_div]
    norm_num
  rw [get_file_relevance_eq, get_file_relevance_eq, ha, hb]
  decide

/-- C2 counterexample: with the user chunk `notes.txt` first in the input and
the system chunk `config.json` second, the formatted context renders the user
entry strictly before the system entry — system chunks are not moved to the
front. -/
theorem system_chunk_not_rendered_first :
    is_system_file "config.json" = true ∧ is_system_file "notes.txt" = false ∧
      strIdxOf (format_search_results [c2User, c2System] "fast") "notes.txt" <
        strIdxOf (format_search_results [c2User, c2System] "fast") "config.json" := by
  refine ⟨by decide, by decide, ?_⟩
  have havg : (if ([c2User, c2System] : List SearchResult).isEmpty = true then (0 : ℚ)
      else (List.map (fun r => r.similarity) [c2User, c2System]).sum /
        (([c2User, c2System] : List SearchResult).length : ℚ)) = mkRat 29 40 := by
    rw [if_neg (by decide)]
    simp only [c2User, c2System, List.map_cons, List.map_nil, List.sum_cons, List.sum_nil,
      List.length_cons, List.length_nil]
    push_cast
    rw [Rat.mkRat_eq_div]
    norm_num
  unfold format_search_results searchResultsHeader
  dsimp only
  rw [havg, if_neg (by decide)]
  decide

/-- C2 amended: the formatter renders chunk entries in retrieval input order
and applies no system-first reordering — for any mixed two-chunk input with
the user chunk first, the output is the header, then the user chunk's entry,
then the system chunk's entry, then the end marker. -/
theorem format_renders_in_input_order (a b : SearchResult) (mode : String)
    (ha : is_system_file a.filename = false) (hb : is_system_file b.filename = true) :
    format_search_results [a, b] mode =
      searchResultsHeader [a, b] ++
        (chunkEntry (extract_vector_db_info [a, b]).type 1 a ++
          chunkEntry (extract_vector_db_info [a, b]).type 2 b) ++
        "--- END VECTORIZED SEARCH RESULTS ---\n" := by
  unfold format_search_results
  rw [if_neg (by simp [List.isEmpty])]
  apply String.ext
  simp only [renderChunks, String.data_append]
  simp

/-- Witness for the amended C2 at the concrete mixed chunk pair. -/
theorem format_renders_in_input_order_witness :
    is_system_file (SearchResult.filename c2User) = false ∧
      is_system_file (SearchResult.filename c2System) = true ∧
      format_search_results [c2User, c2System] "fast" =
        searchResultsHeader [c2User, c2System] ++
          (chunkEntry (extract_vector_db_info [c2User, c2System]).type 1 c2User ++
            chunkEntry (extract_vector_db_info [c2User, c2System]).type 2 c2System) ++
          "--- END VECTORIZED SEARCH RESULTS ---\n" :=
  ⟨by decide, by decide,
    format_renders_in_input_order c2User c2System "fast" (by decide) (by decide)⟩
